import Mathlib

/-!
Verification of the dumux helper scripts:
  bin/doc/getparameterlist.py      (parameter-documentation scraper)
  .gitlab-ci/makepipelineconfig.py (pipeline generator)
  bin/testing/runselectedtests.py  (test selection runner)

Strings are modelled as lists of characters; the Python string operations
used by the scripts (partition, rpartition, split, count, strip, in, join)
are embedded below with Python semantics.  Fallible code returns Except.
-/

/-- Python strings, modelled as lists of characters. -/
abbrev Str := List Char

/-- Conversion of a Lean string literal to the model type. -/
def str (s : String) : Str := s.data

/-- Python s.partition(sep): split at the first occurrence of sep, returning
(before, found?, after); when sep does not occur, (s, false, []). -/
def strPartition (s sep : Str) : Str × Bool × Str :=
  match s with
  | [] => if sep.isPrefixOf ([] : Str) then ([], true, []) else ([], false, [])
  | c :: rest =>
    if sep.isPrefixOf (c :: rest) then ([], true, (c :: rest).drop sep.length)
    else
      let r := strPartition rest sep
      (c :: r.1, r.2.1, r.2.2)

/-- Python s.rpartition(sep): split at the last occurrence of sep; when sep
does not occur, ([], false, s). -/
def strRPartition (s sep : Str) : Str × Bool × Str :=
  let p := strPartition s.reverse sep.reverse
  if p.2.1 then (p.2.2.reverse, true, p.1.reverse) else ([], false, s)

/-- Fuel-driven worker for strCount; the fuel is the length of the scanned
string, which bounds the number of steps. -/
def strCountGo (sub : Str) : Nat → Str → Nat
  | 0, _ => 0
  | Nat.succ fuel, s =>
    match s with
    | [] => 0
    | c :: rest =>
      if sub.isPrefixOf (c :: rest) then
        strCountGo sub fuel ((c :: rest).drop sub.length) + 1
      else strCountGo sub fuel rest

/-- Python s.count(sub): number of non-overlapping occurrences of sub in s. -/
def strCount (s sub : Str) : Nat :=
  if sub = [] then s.length + 1 else strCountGo sub s.length s

/-- Python `sub in s`: substring containment. -/
def strContains (s sub : Str) : Bool :=
  match s with
  | [] => sub.isPrefixOf ([] : Str)
  | c :: rest => sub.isPrefixOf (c :: rest) || strContains rest sub

/-- Fuel-driven worker for strSplit; each step consumes at least one
character, so fuel equal to the length of the string suffices. -/
def strSplitGo (sep : Str) : Nat → Str → Str → List Str
  | 0, s, acc => [acc.reverse ++ s]
  | Nat.succ fuel, s, acc =>
    match s with
    | [] => [acc.reverse]
    | c :: rest =>
      if sep.isPrefixOf (c :: rest) then
        acc.reverse :: strSplitGo sep fuel ((c :: rest).drop sep.length) []
      else strSplitGo sep fuel rest (c :: acc)

/-- Python s.split(sep) for a non-empty separator sep. -/
def strSplit (s sep : Str) : List Str :=
  if sep = [] then [s] else strSplitGo sep s.length s []

/-- Python s.split(sep) for a single-character separator, as structural
recursion (equivalent to strSplit with the singleton separator). -/
def splitOnChar (c : Char) : Str → List Str
  | [] => [[]]
  | a :: rest =>
    if a = c then [] :: splitOnChar c rest
    else
      match splitOnChar c rest with
      | [] => [[a]]
      | r :: rs => (a :: r) :: rs

/-- Remove leading characters contained in cs (left part of Python strip). -/
def stripLeftChars (cs : List Char) : Str → Str
  | [] => []
  | c :: rest => if c ∈ cs then stripLeftChars cs rest else c :: rest

/-- Python s.strip(chars): remove leading and trailing characters in cs. -/
def stripChars (cs : List Char) (s : Str) : Str :=
  ((stripLeftChars cs (stripLeftChars cs s).reverse)).reverse

/-- The Python whitespace characters stripped by s.strip() with no argument. -/
def pyWhitespace : List Char := [' ', '\t', '\n', '\r', '\x0b', '\x0c']

/-- Python sep.join(xs). -/
def joinWith (sep : Str) : List Str → Str
  | [] => []
  | [x] => x
  | x :: y :: xs => x ++ sep ++ joinWith sep (y :: xs)

/-- Python lexicographic comparison of strings by character code point. -/
def strLt : Str → Str → Bool
  | _, [] => false
  | [], _ :: _ => true
  | a :: as, b :: bs =>
    if a.val < b.val then true
    else if b.val < a.val then false
    else strLt as bs

/-- Python exceptions relevant to getparameterlist.py.  The scraper raises
IOError for lines it cannot parse (caught by getParamsFromFile) and can hit
an IndexError on empty parameter names (not caught).  noFuel is an artifact
of the fuel-driven loops and never occurs for the provided fuel. -/
inductive PyErr
  | ioError
  | indexError
  | noFuel
deriving DecidableEq, Repr

/-- The record returned by extractParamName for a successfully parsed line. -/
structure Param where
  paramType : Str
  paramName : Str
  defaultValue : Option Str
deriving DecidableEq, Repr

/-- The return expression of getEnclosedContent:
result.partition(openKey)[2].rpartition(closeKey)[0]. -/
def geFinish (openKey closeKey result : Str) : Str :=
  (strRPartition (strPartition result openKey).2.2 closeKey).1

/-- The while loop of getEnclosedContent: extend result with further
closeKey-terminated chunks of rest until the bracket counts balance;
raise IOError when rest has no further closeKey. -/
def geLoop (openKey closeKey : Str) : Nat → Str → Str → Except PyErr Str
  | fuel, result, rest =>
    if strCount result openKey = strCount result closeKey then
      .ok (geFinish openKey closeKey result)
    else
      match fuel with
      | 0 => .error .noFuel
      | Nat.succ fuel' =>
        let p := strPartition rest closeKey
        if p.2.1 then
          geLoop openKey closeKey fuel' (result ++ p.1 ++ closeKey) p.2.2
        else .error .ioError

/-- getEnclosedContent(string, openKey, closeKey) of getparameterlist.py:
the content of the given string between the first matching pair of
opening/closing keys. -/
def getEnclosedContent (s openKey closeKey : Str) : Except PyErr Str :=
  let s1 := openKey ++ (strPartition s openKey).2.2
  let p := strPartition s1 closeKey
  let result := p.1 ++ closeKey
  let rest := p.2.2
  geLoop openKey closeKey (rest.length + 1) result rest

/-- extractParamName(line) of getparameterlist.py.  Returns .ok none for
lines with no marker (the empty dict), .ok (some param) for parsed lines,
.error .ioError for rejected lines, and .error .indexError when the line
indexes into an empty parameter name (paramName[0] in the source).
List indexing after the guarded splits uses getD; the guarding containment
check makes the index valid exactly as in the source. -/
def extractParamName (line : Str) : Except PyErr (Option Param) :=
  let branch : Option (Str × Bool) :=
    if strContains line (str "getParamFromGroup<") then
      some ((strSplit line (str "getParamFromGroup")).getD 1 [], true)
    else if strContains line (str "getParam<") then
      some ((strSplit line (str "getParam")).getD 1 [], false)
    else none
  match branch with
  | none => .ok none
  | some (line1, hasGroup) =>
    if strCount line1 (str "getParam") > 1 then .error .ioError
    else
      let line2 := (splitOnChar ';' (stripChars [' '] (stripChars ['\n'] line1))).getD 0 []
      match getEnclosedContent line2 (str "<") (str ">") with
      | .error e => .error e
      | .ok paramType0 =>
        match getEnclosedContent
            ((strPartition line2 (str "<" ++ paramType0 ++ str ">")).2.2)
            (str "(") (str ")") with
        | .error e => .error e
        | .ok functionArgs0 =>
          let functionArgs1 :=
            if hasGroup then (strPartition functionArgs0 (str ",")).2.2
            else functionArgs0
          let p := strPartition functionArgs1 (str ",")
          let paramName0 := p.1
          let defaultValue0 : Option Str := if p.2.2 = [] then none else some p.2.2
          let paramType := stripChars [' '] paramType0
          let paramName := stripChars [' '] paramName0
          let defaultValue := defaultValue0.map (stripChars [' '])
          match paramName with
          | [] => .error .indexError
          | c0 :: restName =>
            if c0 ≠ '"' ∨ (c0 :: restName).getLastD ' ' ≠ '"'
                ∨ strContains (c0 :: restName) (str " ") then
              .error .ioError
            else
              .ok (some ⟨paramType, stripChars ['"'] (c0 :: restName), defaultValue⟩)

/-- The per-line loop of getParamsFromFile: collects parsed parameters and
(lineIdx, stripped line) records for lines raising IOError; any other
exception (in particular IndexError) propagates and aborts the scan. -/
def scanGo : Nat → List Str → List Param → List (Nat × Str) →
    Except PyErr (List Param × List (Nat × Str))
  | _, [], ps, es => .ok (ps.reverse, es.reverse)
  | i, l :: rest, ps, es =>
    match extractParamName l with
    | .ok none => scanGo (i + 1) rest ps es
    | .ok (some p) => scanGo (i + 1) rest (p :: ps) es
    | .error .ioError => scanGo (i + 1) rest ps ((i, stripChars pyWhitespace l) :: es)
    | .error e => .error e

/-- getParamsFromFile of getparameterlist.py, on the list of lines of a
file: the extracted parameters together with the collected error records. -/
def getParamsFromFile (lines : List Str) :
    Except PyErr (List Param × List (Nat × Str)) :=
  scanGo 0 lines [] []





/-- An entry of parameterDict in getparameterlist.py: the parameter name with
the parallel lists of observed types and observed default values. -/
structure PEntry where
  paramName : Str
  paramTypes : List Str
  defaultValues : List (Option Str)
deriving DecidableEq, Repr

/-- One step of the duplicate-merging loop building parameterDict: a known
name appends to its type/default lists, a new name is inserted at the end
with singleton lists. -/
def addParam : List PEntry → Param → List PEntry
  | [], p => [⟨p.paramName, [p.paramType], [p.defaultValue]⟩]
  | e :: es, p =>
    if e.paramName = p.paramName then
      ⟨e.paramName, e.paramTypes ++ [p.paramType],
        e.defaultValues ++ [p.defaultValue]⟩ :: es
    else e :: addParam es p

/-- Insertion into a list sorted by paramName (Python code-point order). -/
def insertSorted (e : PEntry) : List PEntry → List PEntry
  | [] => [e]
  | x :: xs =>
    if strLt e.paramName x.paramName then e :: x :: xs else x :: insertSorted e xs

/-- sorted(parameterDict.items()): the entries sorted by parameter name
(keys are unique, so stability is irrelevant). -/
def sortEntries : List PEntry → List PEntry
  | [] => []
  | e :: es => insertSorted e (sortEntries es)

/-- The row format string of getparameterlist.py:
the format call on the literal with four placeholder fields. -/
def formatTableEntry (groupEntry paramName paramType defaultValue : Str) : Str :=
  str " * | " ++ groupEntry ++ str " | " ++ paramName ++ str " | " ++
    paramType ++ str " | " ++ defaultValue ++ str " | TODO: explanation |"

/-- The tableEntry computed for one entry of the sorted dictionary, given the
value of previousGroupEntry when the entry is reached (None initially). -/
def entryRowOf (prevGroup : Option Str) (e : PEntry) : Str :=
  let hasGroup : Bool := decide (strCount e.paramName (str ".") ≠ 0)
  let groupEntry0 :=
    if hasGroup then (splitOnChar '.' e.paramName).getD 0 [] else str "-"
  let pname :=
    if hasGroup then (strPartition e.paramName (str ".")).2.2 else e.paramName
  let ptype := e.paramTypes.getD 0 []
  let dval := match e.defaultValues.getD 0 none with | none => [] | some d => d
  let isNew : Bool := decide (some groupEntry0 ≠ prevGroup)
  let groupEntry :=
    if isNew && hasGroup then str "\\b " ++ groupEntry0 else groupEntry0
  formatTableEntry groupEntry pname ptype dval

/-- State of the table-rendering loop: the grouped and ungrouped entry lists
and previousGroupEntry. -/
structure TableState where
  withGroup : List Str
  withoutGroup : List Str
  prevGroup : Option Str
deriving DecidableEq, Repr

/-- One iteration of the table-rendering loop of getparameterlist.py. -/
def renderStep (st : TableState) (e : PEntry) : TableState :=
  let hasGroup : Bool := decide (strCount e.paramName (str ".") ≠ 0)
  let groupEntry0 :=
    if hasGroup then (splitOnChar '.' e.paramName).getD 0 [] else str "-"
  let isNew : Bool := decide (some groupEntry0 ≠ st.prevGroup)
  let prev := if isNew then some groupEntry0 else st.prevGroup
  let row := entryRowOf st.prevGroup e
  if hasGroup then ⟨st.withGroup ++ [row], st.withoutGroup, prev⟩
  else ⟨st.withGroup, st.withoutGroup ++ [row], prev⟩

/-- tableEntries of getparameterlist.py: merge duplicates, sort by name, run
the rendering loop, and concatenate the ungrouped rows before the grouped
rows. -/
def tableEntriesOf (parameters : List Param) : List Str :=
  let dict := parameters.foldl addParam []
  let sorted := sortEntries dict
  let st := sorted.foldl renderStep ⟨[], [], none⟩
  st.withoutGroup ++ st.withGroup

/-- Re-parsing a rendered table row: the i-th pipe-delimited field, with
surrounding spaces stripped. -/
def rowField (i : Nat) (row : Str) : Str :=
  stripChars [' '] ((splitOnChar '|' row).getD i [])

/-- Concrete scrape results used to exercise the rendering loop: two grouped
parameters sharing the group A and one ungrouped parameter, in unsorted
input order. -/
def demoParams : List Param :=
  [⟨str "int", str "A.Y", none⟩, ⟨str "int", str "B", none⟩,
   ⟨str "int", str "A.X", none⟩]


/-! ## makepipelineconfig.py -/

/-- duneConfigCommand of makepipelineconfig.py. -/
def duneConfigCommand : Str := str "dunecontrol --opts=$DUNE_OPTS_FILE --current all"

/-- buildCommand of makepipelineconfig.py for a given test configuration
(test name, build target) pairs in file order; the empty configuration gets a
configure-plus-echo block, a non-empty one additionally writes TestMakefile
with the aggregate target build_selected_tests and builds it. -/
def buildCommand (indentation : Nat) (config : List (Str × Str)) : List Str :=
  let targetNames := config.map Prod.snd
  if targetNames = [] then
    [duneConfigCommand, str "echo \"No tests to be built.\""]
  else
    [duneConfigCommand,
     str "cd build-cmake",
     str "rm -f TestMakefile && touch TestMakefile",
     str "echo \"include CMakeFiles/Makefile2\" >> TestMakefile",
     str "echo \"\" >> TestMakefile",
     str "|\n" ++ List.replicate indentation ' ' ++
       str "  echo \"build_selected_tests: " ++ joinWith (str " ") targetNames ++
       str "\" >> TestMakefile",
     str "make -f TestMakefile -j4 build_selected_tests"]

/-- testCommand of makepipelineconfig.py for a given test configuration; the
empty configuration runs dune-ctest with the no-op filter NOOP, a non-empty
one filters to the space-joined test names. -/
def testCommand (config : List (Str × Str)) : List Str :=
  let testNames := config.map Prod.fst
  if testNames = [] then
    [str "echo \"No tests to be run, make empty report.\"",
     str "cd build-cmake",
     str "dune-ctest -R NOOP"]
  else
    [str "cd build-cmake",
     str "dune-ctest -j4 --output-on-failure -R " ++ joinWith (str " ") testNames]

/-- makeScriptString of makepipelineconfig.py. -/
def makeScriptString (indentation : Nat) (commands : List Str) : Str :=
  joinWith (str "\n")
    (commands.map (fun c => List.replicate indentation ' ' ++ str "- " ++ c))

/-- Observable file-system effects of a makepipelineconfig.py run. -/
inductive GenEffect
  | openWrite : Str → GenEffect
  | readConfigFile : Str → GenEffect
  | writeRendered : Str → Str → GenEffect
deriving DecidableEq, Repr

/-- Outcome of a makepipelineconfig.py run: the ordered effects and the
message of sys.exit when the run exits fatally. -/
structure GenResult where
  trace : List GenEffect
  fatalError : Option Str
deriving DecidableEq, Repr

/-- The fatal message of substituteAndWrite for a missing template file. -/
def missingTemplateMsg (template : Str) : Str :=
  str "Template file " ++ template ++ str " could not be found"

/-- The main flow of makepipelineconfig.py: the outer with-statement opens
the outfile for writing (truncating it) first; then the command blocks are
computed (loading the configuration file when one is given); then
substituteAndWrite exits fatally when the template is missing, and otherwise
opens the outfile again and writes the substituted template (represented by
the two script strings). -/
def generatorRun (outfile template : Str) (templateExists : Bool)
    (testconfig : Option Str) (indentation : Nat)
    (configData : List (Str × Str)) : GenResult :=
  let t0 : List GenEffect := [.openWrite outfile]
  let t1 := t0 ++ (match testconfig with
    | none => []
    | some p => [GenEffect.readConfigFile p])
  let bc := match testconfig with
    | none => [duneConfigCommand,
               str "dunecontrol --opts=$DUNE_OPTS_FILE --current make -k -j4 build_tests"]
    | some _ => buildCommand indentation configData
  let tc := match testconfig with
    | none => [str "cd build-cmake", str "dune-ctest -j4 --output-on-failure"]
    | some _ => testCommand configData
  if templateExists then
    ⟨t1 ++ [.openWrite outfile,
            .writeRendered (makeScriptString indentation bc)
                           (makeScriptString indentation tc)], none⟩
  else ⟨t1, some (missingTemplateMsg template)⟩

/-! ## runselectedtests.py -/

/-- Observable effects of a runselectedtests.py run. -/
inductive RunnerEffect
  | runProc : List Str → RunnerEffect
  | writeFile : Str → Str → RunnerEffect
  | printMsg : Str → RunnerEffect
deriving DecidableEq, Repr

/-- Outcome of a runselectedtests.py run: the ordered effects and the
message of sys.exit when the run exits fatally (sys.exit with a message
gives a non-zero exit status). -/
structure RunnerResult where
  trace : List RunnerEffect
  fatalError : Option Str
deriving DecidableEq, Repr

/-- Python truthiness of the --config argument (None by default). -/
def configTruthy : Option Str → Bool
  | none => false
  | some s => s ≠ []

/-- buildTests of runselectedtests.py: effects only (the subprocess result
is external). -/
def buildTests (config : List (Str × Str)) (flags : List Str) : List RunnerEffect :=
  if config = [] then [.printMsg (str "No tests to be built")]
  else
    [.writeFile (str "TestMakeFile")
       (str "include CMakeFiles/Makefile2\n" ++ str "testselection: " ++
         joinWith (str " ") (config.map Prod.snd)),
     .runProc ([str "make", str "-f", str "TestMakeFile"] ++ flags ++
       [str "testselection"])]

/-- runTests of runselectedtests.py: effects only. -/
def runTests (config : List (Str × Str)) (script : Str) (flags : List Str) :
    List RunnerEffect :=
  let tests := config.map Prod.fst
  let printed :=
    if tests = [] then
      [RunnerEffect.printMsg
        (str "No tests to be run. Letting dune-ctest produce empty report.")]
    else []
  let tests := if tests = [] then [str "NOOP"] else tests
  let call :=
    if script = [] then [str "dune-ctest"]
    else [str "./" ++ stripLeftChars ['.', '/'] script]
  printed ++ [.runProc (call ++ flags ++ [str "-R"] ++ tests)]

/-- The __main__ block of runselectedtests.py.  The two flag validations run
before anything else: missing build and test flags, then config together
with all; each exits fatally with an empty effect trace.  Afterwards the
build/test phases run; configData models the parsed JSON of the --config
file.  Opening a missing or None config path in selection mode raises and is
modelled as a fatal error. -/
def runnerMain (allFlag buildFlag testFlag : Bool) (config : Option Str)
    (script buildflags testflags : Str)
    (configData : List (Str × Str)) : RunnerResult :=
  if !buildFlag && !testFlag then
    ⟨[], some (str "Neither `build` not `test` flag was set. Exiting.")⟩
  else if configTruthy config && allFlag then
    ⟨[], some (str "Error: both `config` and `all` specified. Please set only one of these arguments.")⟩
  else
    let buildFlags := splitOnChar ' ' buildflags
    let testFlags := splitOnChar ' ' testflags
    if allFlag then
      let b := if buildFlag then
          [RunnerEffect.printMsg (str "Building all tests"),
           RunnerEffect.runProc ([str "make"] ++ buildFlags ++ [str "build_tests"])]
        else []
      let t := if testFlag then
          [RunnerEffect.printMsg (str "Running all tests"),
           RunnerEffect.runProc ([str "ctest"] ++ testFlags)]
        else []
      ⟨b ++ t, none⟩
    else
      match config with
      | none => ⟨[], some (str "TypeError: expected str, bytes or os.PathLike object, not NoneType")⟩
      | some _ =>
        let pr := [RunnerEffect.printMsg
          (Nat.toDigits 10 configData.length ++ str " tests found in the configuration file")]
        let b := if buildFlag then buildTests configData buildFlags else []
        let t := if testFlag then runTests configData script testFlags else []
        ⟨pr ++ b ++ t, none⟩

/-! ## The write phase of getparameterlist.py -/

/-- Names that are bound at module level in getparameterlist.py by the time
the backup line calls copyfile: the single import (os) and every module-level
assignment, definition and loop variable of the script up to that line. -/
def scraperTopLevelNames : List Str :=
  [str "os", str "getEnclosedContent", str "extractParamName",
   str "getParamsFromFile", str "parameters", str "rootDir", str "root",
   str "_", str "files", str "file", str "parameterDict", str "params",
   str "key", str "sortedParameterDict", str "tableEntriesWithGroup",
   str "tableEntriesWithoutGroup", str "previousGroupEntry", str "entry",
   str "hasGroup", str "groupEntry", str "paramName", str "paramType",
   str "defaultValue", str "tableEntry", str "tableEntries"]

/-- Python builtins relevant to name resolution in getparameterlist.py;
copyfile is not a builtin (it lives in shutil, which is never imported). -/
def pythonBuiltins : List Str :=
  [str "print", str "open", str "enumerate", str "sorted", str "len"]

/-- File-system effects of the write phase of getparameterlist.py. -/
inductive ScrapeEffect
  | copyFile : Str → Str → ScrapeEffect
  | writeOutput : Str → ScrapeEffect
deriving DecidableEq, Repr

/-- The write phase of getparameterlist.py: the backup line evaluates the
name copyfile, which must resolve among the given bound names or the
builtins; on success the backup copy happens and then the output file is
overwritten (header, rows, closing marker), otherwise Python raises
NameError at the copyfile call and nothing is copied or written. -/
def scraperWritePhase (bindings : List Str) : Except Str (List ScrapeEffect) :=
  if str "copyfile" ∈ bindings ++ pythonBuiltins then
    .ok [.copyFile (str "doc/doxygen/extradoc/parameterlist.txt")
           (str "doc/doxygen/extradoc/parameterlist_old.txt"),
         .writeOutput (str "doc/doxygen/extradoc/parameterlist.txt")]
  else .error (str "NameError: name copyfile is not defined")


/-! ## Helper lemmas -/

theorem splitOnChar_ne_nil (c : Char) (s : Str) : splitOnChar c s ≠ [] := by
  cases s with
  | nil => simp [splitOnChar]
  | cons a rest =>
    simp only [splitOnChar]
    split
    · simp
    · split <;> simp

theorem getD_zero_mem {α : Type} (l : List α) (d : α) (h : l ≠ []) :
    l.getD 0 d ∈ l := by
  cases l with
  | nil => exact absurd rfl h
  | cons a t => simp [List.getD]

theorem mem_of_mem_splitOnChar {c : Char} :
    ∀ {s : Str} {p : Str}, p ∈ splitOnChar c s → ∀ {x : Char}, x ∈ p → x ∈ s := by
  intro s
  induction s with
  | nil =>
    intro p hp x hx
    simp [splitOnChar] at hp
    subst hp
    simp at hx
  | cons a rest ih =>
    intro p hp x hx
    simp only [splitOnChar] at hp
    by_cases hac : a = c
    · simp only [hac, if_true] at hp
      rcases List.mem_cons.mp hp with h | h
      · subst h; simp at hx
      · exact List.mem_cons_of_mem _ (ih h hx)
    · simp only [hac, if_false] at hp
      rcases hsp : splitOnChar c rest with _ | ⟨r, rs⟩
      · exact absurd hsp (splitOnChar_ne_nil c rest)
      · rw [hsp] at hp
        rcases List.mem_cons.mp hp with h | h
        · subst h
          rcases List.mem_cons.mp hx with h | h
          · exact h ▸ List.mem_cons_self a rest
          · exact List.mem_cons_of_mem _ (ih (hsp ▸ List.mem_cons_self r rs) h)
        · exact List.mem_cons_of_mem _ (ih (hsp ▸ List.mem_cons_of_mem r h) hx)

theorem mem_strPartition_after {sep : Str} :
    ∀ {s : Str} {x : Char}, x ∈ (strPartition s sep).2.2 → x ∈ s := by
  intro s
  induction s with
  | nil =>
    intro x hx
    simp only [strPartition] at hx
    split at hx <;> simp at hx
  | cons a rest ih =>
    intro x hx
    simp only [strPartition] at hx
    split at hx
    · exact List.mem_of_mem_drop hx
    · exact List.mem_cons_of_mem _ (ih hx)

theorem splitOnChar_append_cons {c : Char} :
    ∀ {a : Str}, c ∉ a → ∀ (b : Str),
      splitOnChar c (a ++ c :: b) = a :: splitOnChar c b := by
  intro a
  induction a with
  | nil =>
    intro _ b
    simp [splitOnChar]
  | cons d a' ih =>
    intro h b
    have hdc : d ≠ c := fun hd => h (hd ▸ List.mem_cons_self d a')
    have ha' : c ∉ a' := fun hm => h (List.mem_cons_of_mem d hm)
    simp only [List.cons_append, splitOnChar, hdc, if_false, List.append_eq]
    rw [ih ha' b]

theorem rowField_four_empty (g n t : Str) (hg : '|' ∉ g) (hn : '|' ∉ n)
    (ht : '|' ∉ t) : rowField 4 (formatTableEntry g n t []) = [] := by
  have hrow : formatTableEntry g n t [] =
      str " * " ++ '|' :: ((' ' :: (g ++ [' '])) ++ '|' ::
        ((' ' :: (n ++ [' '])) ++ '|' :: ((' ' :: (t ++ [' '])) ++ '|' ::
          (str "  " ++ '|' :: (str " TODO: explanation " ++ ['|']))))) := by
    simp only [formatTableEntry, List.append_assoc, List.cons_append,
      List.nil_append]
    rfl
  have h0 : '|' ∉ str " * " := by decide
  have h1 : '|' ∉ ' ' :: (g ++ [' ']) := by
    intro hx
    rcases List.mem_cons.mp hx with h | h
    · exact absurd h.symm (by decide)
    · rcases List.mem_append.mp h with h | h
      · exact hg h
      · exact absurd h (by decide)
  have h2 : '|' ∉ ' ' :: (n ++ [' ']) := by
    intro hx
    rcases List.mem_cons.mp hx with h | h
    · exact absurd h.symm (by decide)
    · rcases List.mem_append.mp h with h | h
      · exact hn h
      · exact absurd h (by decide)
  have h3 : '|' ∉ ' ' :: (t ++ [' ']) := by
    intro hx
    rcases List.mem_cons.mp hx with h | h
    · exact absurd h.symm (by decide)
    · rcases List.mem_append.mp h with h | h
      · exact ht h
      · exact absurd h (by decide)
  have h4 : '|' ∉ str "  " := by decide
  have h5 : '|' ∉ str " TODO: explanation " := by decide
  have hsplit : splitOnChar '|' (formatTableEntry g n t []) =
      [str " * ", ' ' :: (g ++ [' ']), ' ' :: (n ++ [' ']),
       ' ' :: (t ++ [' ']), str "  ", str " TODO: explanation ", []] := by
    rw [hrow, splitOnChar_append_cons h0, splitOnChar_append_cons h1,
      splitOnChar_append_cons h2, splitOnChar_append_cons h3,
      splitOnChar_append_cons h4]
    have : (['|'] : Str) = '|' :: [] := rfl
    rw [this, splitOnChar_append_cons h5]
    rfl
  rw [rowField, hsplit]
  rfl

/-! ## Claim theorems -/

/-- C1: extractParamName returns the template type argument, the quoted
parameter name with the quotes stripped, and the default value (None when
absent, group argument discarded for the grouped variant): on the line
getParam&lt;int&gt;("Grid.Cells", 10); it returns paramType int, paramName
Grid.Cells and defaultValue 10, and on the line
getParamFromGroup&lt;std::string&gt;("Problem", "Name"); it returns paramType
std::string, paramName Name and no default value. -/
theorem extractParamName_spec_examples :
    extractParamName (str "getParam<int>(\"Grid.Cells\", 10);") =
        .ok (some ⟨str "int", str "Grid.Cells", some (str "10")⟩) ∧
      extractParamName (str "getParamFromGroup<std::string>(\"Problem\", \"Name\");") =
        .ok (some ⟨str "std::string", str "Name", none⟩) := ⟨rfl, rfl⟩

/-- C2: for every non-empty test selection, the build command block contains
the aggregate target line listing the build targets space-joined in input
order, and the test command block contains the dune-ctest filter listing the
test names space-joined in input order. -/
theorem pipeline_nonempty_selection (ind : Nat) (config : List (Str × Str))
    (h : config ≠ []) :
    (str "|\n" ++ List.replicate ind ' ' ++
        str "  echo \"build_selected_tests: " ++
        joinWith (str " ") (config.map Prod.snd) ++ str "\" >> TestMakefile") ∈
      buildCommand ind config ∧
    (str "dune-ctest -j4 --output-on-failure -R " ++
        joinWith (str " ") (config.map Prod.fst)) ∈ testCommand config := by
  have h1 : config.map Prod.snd ≠ [] := by simpa using h
  have h2 : config.map Prod.fst ≠ [] := by simpa using h
  constructor
  · simp [buildCommand, h1]
  · simp [testCommand, h2]

/-- C2 witness: the concrete selection T1 maps-to X, T2 maps-to Y yields the
aggregate line for X Y and the filter for T1 T2. -/
theorem pipeline_nonempty_selection_witness :
    (str "|\n      echo \"build_selected_tests: X Y\" >> TestMakefile") ∈
      buildCommand 4 [(str "T1", str "X"), (str "T2", str "Y")] ∧
    (str "dune-ctest -j4 --output-on-failure -R T1 T2") ∈
      testCommand [(str "T1", str "X"), (str "T2", str "Y")] :=
  pipeline_nonempty_selection 4 [(str "T1", str "X"), (str "T2", str "Y")]
    (by decide)

/-- C3: for the empty test selection, the build command block performs no
target-specific build (configuration plus the nothing-to-build echo) and the
test command block runs dune-ctest only with the no-op filter NOOP. -/
theorem pipeline_empty_selection (ind : Nat) :
    buildCommand ind [] =
        [duneConfigCommand, str "echo \"No tests to be built.\""] ∧
      testCommand [] =
        [str "echo \"No tests to be run, make empty report.\"",
         str "cd build-cmake", str "dune-ctest -R NOOP"] := ⟨rfl, rfl⟩

/-- C4 (code bug): a line with two occurrences of the marker getParam&lt; is
NOT recorded as an error: the multiple-occurrence check inspects the chunk
of the line after splitting on the marker, which no longer contains the
marker text, so extractParamName silently returns the first call and the
scan records no error for the line. -/
theorem multi_marker_line_not_rejected :
    extractParamName (str "getParam<int>(\"a\"); getParam<int>(\"b\");") =
        .ok (some ⟨str "int", str "a", none⟩) ∧
      getParamsFromFile [str "getParam<int>(\"a\"); getParam<int>(\"b\");"] =
        .ok ([⟨str "int", str "a", none⟩], []) := ⟨rfl, rfl⟩

/-- C5 counterexample: for the sorted adjacent grouped entries A.X and A.Y,
the second row of the same group still carries the group label A in its
group column, so the label is not rendered only once as the claim states. -/
theorem group_label_repeated_counterexample :
    rowField 1 ((tableEntriesOf demoParams).getD 2 []) = str "A" ∧
      str "A" ≠ ([] : Str) := ⟨rfl, by decide⟩

/-- C5 amended: entries are sorted lexicographically by parameter name with
ungrouped entries before grouped ones, and for consecutive grouped entries
sharing the same group the distinguishing backslash-b prefix marker is
rendered only on the first entry of the run, while the group label itself is
repeated (without the marker) on the remaining rows of the run. -/
theorem group_marker_once_amended :
    tableEntriesOf demoParams =
      [str " * | - | B | int |  | TODO: explanation |",
       str " * | \\b A | X | int |  | TODO: explanation |",
       str " * | A | Y | int |  | TODO: explanation |"] := rfl

/-- C6: for every invocation of the test selection runner with both the all
and config flags set, or with neither the build nor the test flag set, the
run exits fatally (sys.exit with a message, hence non-zero status) with an
empty effect trace: no external build or test process is invoked. -/
theorem runner_invalid_flags (allFlag buildFlag testFlag : Bool)
    (config : Option Str) (script buildflags testflags : Str)
    (configData : List (Str × Str))
    (h : (configTruthy config && allFlag) = true ∨
      (!buildFlag && !testFlag) = true) :
    (runnerMain allFlag buildFlag testFlag config script buildflags testflags
        configData).trace = [] ∧
      (runnerMain allFlag buildFlag testFlag config script buildflags
        testflags configData).fatalError ≠ none := by
  unfold runnerMain
  rcases h with h | h
  · by_cases hb : (!buildFlag && !testFlag) = true
    · simp [hb]
    · simp [hb, h]
  · simp [h]

/-- C6 witness: the concrete invocation with both all and config set exits
fatally with no external process invoked. -/
theorem runner_invalid_flags_witness :
    (runnerMain true true false (some (str "testconfig.json")) (str "")
        (str "-j4") (str "-j4 --output-on-failure") []).trace = [] ∧
      (runnerMain true true false (some (str "testconfig.json")) (str "")
        (str "-j4") (str "-j4 --output-on-failure") []).fatalError ≠ none :=
  runner_invalid_flags true true false (some (str "testconfig.json")) (str "")
    (str "-j4") (str "-j4 --output-on-failure") [] (Or.inl (by decide))

/-- C7 (code bug): the backup line of getparameterlist.py calls copyfile,
but copyfile is bound neither at module level (the only import is os) nor as
a builtin, so the write phase raises NameError and neither the backup copy
nor the overwrite happens; were copyfile bound, the backup would precede the
overwrite as the claim states. -/
theorem scraper_backup_namerror :
    scraperWritePhase scraperTopLevelNames =
        .error (str "NameError: name copyfile is not defined") ∧
      scraperWritePhase (str "copyfile" :: scraperTopLevelNames) =
        .ok [.copyFile (str "doc/doxygen/extradoc/parameterlist.txt")
               (str "doc/doxygen/extradoc/parameterlist_old.txt"),
             .writeOutput (str "doc/doxygen/extradoc/parameterlist.txt")] :=
  ⟨rfl, rfl⟩

/-- C8: for every dictionary entry whose first recorded default value is
None, the rendered table row carries the empty string in the default-value
column (given that neither the parameter name nor the rendered type contains
the pipe delimiter), so re-parsing the row yields an empty default field. -/
theorem default_none_renders_empty (pg : Option Str) (e : PEntry)
    (hd : e.defaultValues.getD 0 none = none)
    (hn : '|' ∉ e.paramName)
    (ht : '|' ∉ e.paramTypes.getD 0 []) :
    rowField 4 (entryRowOf pg e) = [] := by
  simp only [entryRowOf]
  rw [hd]
  apply rowField_four_empty
  · have hsh : '|' ∉ (splitOnChar '.' e.paramName).getD 0 [] := fun hx =>
      hn (mem_of_mem_splitOnChar
        (getD_zero_mem _ [] (splitOnChar_ne_nil '.' e.paramName)) hx)
    split
    · split
      · intro hx
        rcases List.mem_append.mp hx with h | h
        · exact absurd h (by decide)
        · exact hsh h
      · exact hsh
    · split
      · intro hx
        rcases List.mem_append.mp hx with h | h
        · exact absurd h (by decide)
        · exact absurd h (by decide)
      · intro hx
        exact absurd hx (by decide)
  · split
    · intro hx
      exact hn (mem_strPartition_after hx)
    · exact hn
  · exact ht

/-- C8 witness: an entry with no recorded default renders a row whose
re-parsed default field is empty. -/
theorem default_none_renders_empty_witness :
    rowField 4 (entryRowOf none
      ⟨str "Problem.Name", [str "std::string"], [none]⟩) = [] :=
  default_none_renders_empty none
    ⟨str "Problem.Name", [str "std::string"], [none]⟩ rfl (by decide) (by decide)

/-- C9: when the template file does not exist, makepipelineconfig.py exits
fatally, but the outfile has already been opened for writing (truncated) by
the outer with-statement before the template-existence check, and no
rendered content is ever written: the previous contents are destroyed. -/
theorem generator_truncates_before_template_check (outfile template : Str)
    (ind : Nat) (configData : List (Str × Str)) :
    generatorRun outfile template false none ind configData =
        ⟨[.openWrite outfile], some (missingTemplateMsg template)⟩ ∧
      ∀ p : Str, generatorRun outfile template false (some p) ind configData =
        ⟨[.openWrite outfile, .readConfigFile p],
          some (missingTemplateMsg template)⟩ :=
  ⟨rfl, fun _ => rfl⟩

/-- C10: a parameter-accessor call with an empty argument list makes
extractParamName raise IndexError (indexing the empty parameter-name
string), which getParamsFromFile does not catch (it catches only IOError),
so the line is not recorded as a collected error and the scan aborts. -/
theorem empty_args_index_error :
    extractParamName (str "getParam<int>();") = .error .indexError ∧
      getParamsFromFile [str "getParam<int>();"] = .error .indexError :=
  ⟨rfl, rfl⟩
